import Mathlib

/-!
Shallow embedding of the pcap-analyzer packet generators
(create_large_pcap.py, create_sample_pcap.py, create_test_samples.py).

Python integers are modelled as `Int`, byte strings as `List Nat` with
entries below 256.  `struct.pack` calls become `Option (List Nat)` valued
packing functions that return `none` exactly when CPython would raise
`struct.error` (value outside the range of the format code).  Python `//`
and `%` on integers are `Int.fdiv` and `Int.emod` (floor division and a
nonnegative remainder for positive divisors, exactly as in Python), and
`x & (2^k - 1)` is written `x % (2^k)`, which agrees with the Python
bitwise AND on all integers.  `x << k` is written `x * 2^k`, which agrees
with the Python shift on all integers.
-/

/-- Twos-complement bitwise OR on unbounded integers, agreeing with the
Python `|` operator on all (also negative) operands.  For nonnegative
operands it is `Nat.lor`; the negative cases use the identity
`a ||| b = ~(~a &&& ~b)` with `~x = -x - 1`. -/
def pyOr (a b : Int) : Int :=
  if 0 ≤ a then
    if 0 ≤ b then ((a.toNat ||| b.toNat : Nat) : Int)
    else -(((-b - 1).toNat - ((-b - 1).toNat &&& a.toNat) : Nat) : Int) - 1
  else
    if 0 ≤ b then -(((-a - 1).toNat - ((-a - 1).toNat &&& b.toNat) : Nat) : Int) - 1
    else -((((-a - 1).toNat &&& (-b - 1).toNat : Nat)) : Int) - 1

/-- Model of `struct.pack` format code `B` (unsigned byte): one byte, or
`struct.error` (`none`) when the value is outside `[0, 255]`. -/
def packU8 (v : Int) : Option (List Nat) :=
  if 0 ≤ v ∧ v < 256 then some [v.toNat] else none

/-- Model of big-endian `struct.pack` code `>H` (unsigned 16-bit). -/
def packBEU16 (v : Int) : Option (List Nat) :=
  if 0 ≤ v ∧ v < 65536 then some [v.toNat / 256, v.toNat % 256] else none

/-- Model of big-endian `struct.pack` code `>L` (unsigned 32-bit). -/
def packBEU32 (v : Int) : Option (List Nat) :=
  if 0 ≤ v ∧ v < 4294967296 then
    some [v.toNat / 16777216 % 256, v.toNat / 65536 % 256, v.toNat / 256 % 256, v.toNat % 256]
  else none

/-- Model of big-endian `struct.pack` code `>h` (signed 16-bit,
twos-complement): two bytes, or `struct.error` outside `[-32768, 32767]`. -/
def packBES16 (v : Int) : Option (List Nat) :=
  if -32768 ≤ v ∧ v ≤ 32767 then
    some [(v % 65536).toNat / 256, (v % 65536).toNat % 256]
  else none

/-- Model of little-endian `struct.pack` code `<H` (unsigned 16-bit). -/
def packLEU16 (v : Int) : Option (List Nat) :=
  if 0 ≤ v ∧ v < 65536 then some [v.toNat % 256, v.toNat / 256] else none

/-- Model of little-endian `struct.pack` code `<L` (unsigned 32-bit). -/
def packLEU32 (v : Int) : Option (List Nat) :=
  if 0 ≤ v ∧ v < 4294967296 then
    some [v.toNat % 256, v.toNat / 256 % 256, v.toNat / 65536 % 256, v.toNat / 16777216 % 256]
  else none

/-- Read a big-endian 16-bit value from a byte list at an offset. -/
def readBE16 (l : List Nat) (off : Nat) : Nat :=
  256 * l.getD off 0 + l.getD (off + 1) 0

/-- Read a big-endian 32-bit value from a byte list at an offset. -/
def readBE32 (l : List Nat) (off : Nat) : Nat :=
  16777216 * l.getD off 0 + 65536 * l.getD (off + 1) 0 +
    256 * l.getD (off + 2) 0 + l.getD (off + 3) 0

/-- Read a little-endian 16-bit value from a byte list at an offset. -/
def readLE16 (l : List Nat) (off : Nat) : Nat :=
  l.getD off 0 + 256 * l.getD (off + 1) 0

/-- Read a little-endian 32-bit value from a byte list at an offset. -/
def readLE32 (l : List Nat) (off : Nat) : Nat :=
  l.getD off 0 + 256 * l.getD (off + 1) 0 +
    65536 * l.getD (off + 2) 0 + 16777216 * l.getD (off + 3) 0

/-- Embedding of `create_pcap_global_header` (identical in all three
source files): `struct.pack` with format `<LHHLLLL` applied to the
constants magic `0xa1b2c3d4`, version `(2, 4)`, thiszone `0`, sigfigs `0`,
snaplen `65535`, network `1`. -/
def create_pcap_global_header : Option (List Nat) := do
  let m ← packLEU32 0xa1b2c3d4
  let vmaj ← packLEU16 2
  let vmin ← packLEU16 4
  let tz ← packLEU32 0
  let sf ← packLEU32 0
  let sl ← packLEU32 65535
  let nw ← packLEU32 1
  return m ++ vmaj ++ vmin ++ tz ++ sf ++ sl ++ nw

/-- Embedding of the inner `mac_to_bytes` helper of
`create_ethernet_header`: `bytes.fromhex(mac_str.replace(":", ""))`.
`bytes.fromhex` on a space-free string succeeds exactly when the string
is an even number of hexadecimal digits (`ValueError`, i.e. `none`,
otherwise); `replace` drops every colon. -/
def hexDigitVal (c : Char) : Option Nat :=
  if ('0' ≤ c ∧ c ≤ '9') then some (c.toNat - 48)
  else if ('a' ≤ c ∧ c ≤ 'f') then some (c.toNat - 87)
  else if ('A' ≤ c ∧ c ≤ 'F') then some (c.toNat - 55)
  else none

/-- Pair up hexadecimal digits into byte values, as `bytes.fromhex` does
on whitespace-free input; odd length or a non-hex character fails. -/
def bytesFromHex : List Char → Option (List Nat)
  | [] => some []
  | [_] => none
  | c1 :: c2 :: rest => do
    let h ← hexDigitVal c1
    let lo ← hexDigitVal c2
    let r ← bytesFromHex rest
    return (16 * h + lo) :: r

/-- `mac_to_bytes(mac_str)` from the source: strip colons, parse hex. -/
def mac_to_bytes (s : List Char) : Option (List Nat) :=
  bytesFromHex (s.filter (fun c => c ≠ ':'))

/-- The default `src_mac` argument string of `create_ethernet_header`. -/
def default_src_mac : List Char := "00:11:22:33:44:55".toList

/-- The default `dst_mac` argument string of `create_ethernet_header`. -/
def default_dst_mac : List Char := "aa:bb:cc:dd:ee:ff".toList

/-- Embedding of `create_ethernet_header(src_mac, dst_mac)` (identical in
all three source files): parse both MAC strings, then return
`dst + src + struct.pack(">H", 0xaefe)`. -/
def create_ethernet_header (src_mac dst_mac : List Char) : Option (List Nat) :=
  (mac_to_bytes dst_mac).bind fun dst =>
    (mac_to_bytes src_mac).bind fun src =>
      (packBEU16 0xaefe).bind fun et =>
        some (dst ++ src ++ et)

/-- Embedding of `create_ecpri_header(message_type, rtc_id, seq_id,
payload_size)` from create_large_pcap.py: byte 0 is
`(1 << 4) | (0 << 3) | (0 << 2) | (message_type & 0x03)`, then
`struct.pack(">BHHH", byte0, payload_size, rtc_id, seq_id)`.
`message_type & 0x03` is written `message_type % 4`. -/
def create_ecpri_header (message_type rtc_id seq_id payload_size : Int) : Option (List Nat) :=
  (packU8 (pyOr (pyOr (pyOr (1 * 16) 0) 0) (message_type % 4))).bind fun b0 =>
    (packBEU16 payload_size).bind fun ps =>
      (packBEU16 rtc_id).bind fun rtc =>
        (packBEU16 seq_id).bind fun sq =>
          some (b0 ++ ps ++ rtc ++ sq)

/-- Embedding of line 109 of create_sample_pcap.py, the in-place patch of
an already-emitted eCPRI header:
`ecpri_header[:1] + struct.pack(">H", payload_size) + ecpri_header[3:]`. -/
def patch_ecpri_payload (header : List Nat) (payload_size : Int) : Option (List Nat) := do
  let ps ← packBEU16 payload_size
  return header.take 1 ++ ps ++ header.drop 3

/-- Embedding of `create_oran_header(frame_id, subframe_id, slot_id,
symbol_id, section_id, start_prbu, num_prbu)` (identical in all three
source files):
byte 0 is `(0 << 7) | (1 << 4) | (0 & 0x0f)`;
byte 2 is `(subframe_id << 4) | (slot_id & 0x0f)`;
byte 3 is `(symbol_id << 2) | 0`;
the section word is
`(section_id << 20) | (1 << 19) | (0 << 18) | (start_prbu << 8) | num_prbu`;
the result is `struct.pack(">BBBB", byte0, frame_id, byte2, byte3) +
struct.pack(">L", section_fields)`.  Only `slot_id` is masked; every other
field is packed unmasked. -/
def create_oran_header (frame_id subframe_id slot_id symbol_id
    section_id start_prbu num_prbu : Int) : Option (List Nat) :=
  (packU8 (pyOr (pyOr (0 * 128) (1 * 16)) ((0 : Int) % 16))).bind fun b0 =>
    (packU8 frame_id).bind fun b1 =>
      (packU8 (pyOr (subframe_id * 16) (slot_id % 16))).bind fun b2 =>
        (packU8 (pyOr (symbol_id * 4) 0)).bind fun b3 =>
          (packBEU32 (pyOr (pyOr (pyOr (pyOr (section_id * 1048576) (1 * 524288))
              (0 * 262144)) (start_prbu * 256)) num_prbu)).bind fun sw =>
            some (b0 ++ b1 ++ b2 ++ b3 ++ sw)

/-- The fields of the O-RAN application header under the documented bit
layout: frame id byte, subframe/slot nibbles, symbol id (top 6 bits of
byte 3), and the 32-bit section word split as sectionId(12) rb(1)
symInc(1) startPrbu(10) numPrbu(8). -/
structure OranFields where
  frameId : Nat
  subframeId : Nat
  slotId : Nat
  symbolId : Nat
  sectionId : Nat
  rb : Nat
  symInc : Nat
  startPrbu : Nat
  numPrbu : Nat
deriving DecidableEq

/-- Unpack an 8-byte application header per the documented bit layout
(spec section 3: sectionId 12 bits, rb 1 bit, symInc 1 bit, startPrbu
10 bits, numPrbu 8 bits). -/
def decodeOranHeader (l : List Nat) : OranFields :=
  let w := readBE32 l 4
  { frameId := l.getD 1 0
    subframeId := l.getD 2 0 / 16
    slotId := l.getD 2 0 % 16
    symbolId := l.getD 3 0 / 4
    sectionId := w / 1048576
    rb := w / 524288 % 2
    symInc := w / 262144 % 2
    startPrbu := w / 256 % 1024
    numPrbu := w % 256 }

/-- Abstract interface to the two parts of the Python runtime used by
`generate_iq_samples_fast` that have no exact integer semantics: the map
from a seed to the Mersenne-Twister output stream (`random.seed`), and
the truncated trigonometric synthesis `int(amplitude * math.cos(t))` /
`int(amplitude * math.sin(t))`.  `cosI tag amp fv pv i n` stands for
`int(amplitude * math.cos(t))` where `t` is the phase the source computes
for pattern `tag` from the loop index `i`, the sample count `n` and (for
the sine pattern) the frequency and phase words `fv`, `pv` drawn from
`random.random()`. -/
structure PyOracle where
  seedStream : Int → Nat → Nat
  cosI : Nat → Int → Nat → Nat → Nat → Nat → Int
  sinI : Nat → Int → Nat → Nat → Nat → Nat → Int

/-- The state of the global `random` generator: an output word stream and
a position in it. -/
structure RngState where
  stream : Nat → Nat
  pos : Nat

/-- `random.seed(seed)`: replace the global generator state by the one
determined by the seed alone. -/
def seed_rng (O : PyOracle) (seed : Int) : RngState :=
  { stream := O.seedStream seed, pos := 0 }

/-- `random.randint(a, b)`: a uniformly drawn integer of `[a, b]`,
consuming one stream word; `ValueError` (`none`) when `a > b`. -/
def randint (a b : Int) (g : RngState) : Option (Int × RngState) :=
  if a ≤ b then
    some (a + (g.stream g.pos : Int) % (b - a + 1), { g with pos := g.pos + 1 })
  else none

/-- `random.random()`: consumes one stream word; the word itself is
handed to the trigonometric oracle (the float value never meets integer
arithmetic directly in the source). -/
def rand_float (g : RngState) : Nat × RngState :=
  (g.stream g.pos, { g with pos := g.pos + 1 })

/-- The clamp `max(-32768, min(32767, x))` from the source. -/
def clamp16 (v : Int) : Int := max (-32768) (min 32767 v)

/-- The noise-pattern loop body of `generate_iq_samples_fast` (pattern 1):
each sample draws I and Q independently with
`random.randint(-amplitude, amplitude)`. -/
def noise_pairs (amp : Int) (g : RngState) : Nat → Option (List (Int × Int))
  | 0 => some []
  | Nat.succ k => do
    let p1 ← randint (-amp) amp g
    let p2 ← randint (-amp) amp p1.2
    let rest ← noise_pairs amp p2.2 k
    return (p1.1, p2.1) :: rest

/-- Embedding of `generate_iq_samples_fast(num_samples, pattern_type,
seed)` up to (but not including) the `struct.pack` serialization: the
list of `(i_sample, q_sample)` pairs the source computes.  The function
begins with `random.seed(seed)`, so the incoming generator state `g0` is
discarded.  Pattern 0 (sine) draws an amplitude jitter of `[-500, 500]`,
a frequency and a phase, and clamps; pattern 1 (noise) draws a jitter of
`[-300, 300]` and per-sample uniform values with no clamp; pattern 2
(low power) draws a jitter of `[-50, 50]` with no clamp; every other
pattern value (high power) draws a jitter of `[-1000, 1000]` and clamps.
`range(num_samples)` is empty for nonpositive counts, hence `toNat`. -/
def generate_iq_pairs_fast (O : PyOracle) (num_samples pattern_type seed : Int)
    (g0 : RngState) : Option (List (Int × Int)) :=
  if pattern_type = 0 then
    (randint (-500) 500 (seed_rng O seed)).bind (fun p1 =>
      let amplitude := 2000 + p1.1
      let f := rand_float p1.2
      let p := rand_float f.2
      some ((List.range num_samples.toNat).map (fun i =>
        (clamp16 (O.cosI 0 amplitude f.1 p.1 i num_samples.toNat),
         clamp16 (O.sinI 0 amplitude f.1 p.1 i num_samples.toNat)))))
  else if pattern_type = 1 then
    (randint (-300) 300 (seed_rng O seed)).bind (fun p1 =>
      noise_pairs (1000 + p1.1) p1.2 num_samples.toNat)
  else if pattern_type = 2 then
    (randint (-50) 50 (seed_rng O seed)).bind (fun p1 =>
      let amplitude := 200 + p1.1
      some ((List.range num_samples.toNat).map (fun i =>
        (O.cosI 2 amplitude 0 0 i num_samples.toNat,
         O.sinI 2 amplitude 0 0 i num_samples.toNat))))
  else
    (randint (-1000) 1000 (seed_rng O seed)).bind (fun p1 =>
      let amplitude := 6000 + p1.1
      some ((List.range num_samples.toNat).map (fun i =>
        (clamp16 (O.cosI 3 amplitude 0 0 i num_samples.toNat),
         clamp16 (O.sinI 3 amplitude 0 0 i num_samples.toNat)))))

/-- `struct.pack(">hh", i_sample, q_sample)`: four bytes per sample. -/
def sample_bytes (iq : Int × Int) : Option (List Nat) := do
  let a ← packBES16 iq.1
  let b ← packBES16 iq.2
  return a ++ b

/-- The serialization half of `generate_iq_samples_fast`: pack each pair
and join the chunks (`b"".join(samples)`). -/
def serialize_pairs : List (Int × Int) → Option (List Nat)
  | [] => some []
  | pr :: rest => do
    let c ← sample_bytes pr
    let r ← serialize_pairs rest
    return c ++ r

/-- Embedding of `generate_iq_samples_fast` from create_large_pcap.py:
the computed sample pairs, serialized. -/
def generate_iq_samples_fast (O : PyOracle) (num_samples pattern_type seed : Int)
    (g0 : RngState) : Option (List Nat) :=
  (generate_iq_pairs_fast O num_samples pattern_type seed g0).bind serialize_pairs

/-- Embedding of `create_oran_packet_fast(packet_id)` from
create_large_pcap.py: derive the per-packet parameters from the packet
id, build the Ethernet, O-RAN and IQ parts, compute
`payload_size = len(oran_header) + len(iq_data)`, build the eCPRI header
with it, and concatenate `eth + ecpri + oran + iq`. -/
def create_oran_packet_fast (O : PyOracle) (packet_id : Int) (g0 : RngState) :
    Option (List Nat) :=
  (create_ethernet_header default_src_mac default_dst_mac).bind fun eth =>
    (create_oran_header ((packet_id.fdiv 140) % 1024) (((packet_id.fdiv 14) % 10).fdiv 2 % 10)
        ((packet_id.fdiv 14) % 10) (packet_id % 14) (packet_id % 4096) 0 273).bind fun oran =>
      (generate_iq_samples_fast O (273 * 12) (packet_id % 4) packet_id g0).bind fun iq =>
        (create_ecpri_header 0 (0x1000 + packet_id % 8) (packet_id % 65536)
            ((oran.length : Int) + (iq.length : Int))).bind fun ecpri =>
          some (eth ++ ecpri ++ oran ++ iq)

/-- A concrete oracle used to instantiate theorems on explicit inputs:
the zero stream and the zero trigonometric synthesis. -/
def testOracle : PyOracle :=
  { seedStream := fun _ _ => 0, cosI := fun _ _ _ _ _ _ => 0, sinI := fun _ _ _ _ _ _ => 0 }

/-- A concrete leftover generator state for instantiating theorems. -/
def rngZero : RngState := { stream := fun _ => 0, pos := 0 }

/-- Values in the signed 16-bit range. -/
def inRange16 (v : Int) : Prop := -32768 ≤ v ∧ v ≤ 32767

/-- The trigonometric oracle respects the mathematical bound
`abs (int (amplitude * cos t)) ≤ amplitude`: `abs (math.cos t) ≤ 1`, the
product of a double of `[-1, 1]` with an exactly representable
nonnegative amplitude has magnitude at most the amplitude, and `int`
truncates toward zero. -/
def TrigBounded (O : PyOracle) : Prop :=
  ∀ tag amp fv pv i n, 0 ≤ amp →
    (-amp ≤ O.cosI tag amp fv pv i n ∧ O.cosI tag amp fv pv i n ≤ amp) ∧
    (-amp ≤ O.sinI tag amp fv pv i n ∧ O.sinI tag amp fv pv i n ≤ amp)

theorem trigBounded_testOracle : TrigBounded testOracle := by
  intro tag amp fv pv i n h
  exact ⟨⟨by simpa [testOracle] using h, by simp [testOracle, h]⟩,
    ⟨by simpa [testOracle] using h, by simp [testOracle, h]⟩⟩

theorem pyOr_zero_right (a : Int) : pyOr a 0 = a := by
  unfold pyOr
  by_cases h : 0 ≤ a
  · rw [if_pos h, if_pos le_rfl]
    simp [Int.toNat_of_nonneg h]
  · rw [if_neg h, if_pos le_rfl]
    simp
    omega

theorem pyOr_mul16 (a b : Int) (ha0 : 0 ≤ a) (ha : a < 16) (hb0 : 0 ≤ b) (hb : b < 16) :
    pyOr (a * 16) b = a * 16 + b := by
  interval_cases a <;> interval_cases b <;> decide

theorem packU8_of_range {v : Int} (h0 : 0 ≤ v) (h1 : v < 256) :
    packU8 v = some [v.toNat] := by
  simp [packU8, h0, h1]

theorem packU8_some {v : Int} {l : List Nat} (h : packU8 v = some l) :
    l = [v.toNat] ∧ 0 ≤ v ∧ v < 256 := by
  unfold packU8 at h
  split at h
  · cases h; exact ⟨rfl, by assumption⟩
  · cases h

theorem packBEU16_of_range {v : Int} (h0 : 0 ≤ v) (h1 : v < 65536) :
    packBEU16 v = some [v.toNat / 256, v.toNat % 256] := by
  simp [packBEU16, h0, h1]

theorem packBEU16_some_length {v : Int} {l : List Nat} (h : packBEU16 v = some l) :
    l.length = 2 := by
  unfold packBEU16 at h
  split at h
  · cases h; rfl
  · cases h

theorem packU8_some_length {v : Int} {l : List Nat} (h : packU8 v = some l) :
    l.length = 1 := by
  rw [(packU8_some h).1]
  rfl

theorem packBEU32_some_length {v : Int} {l : List Nat} (h : packBEU32 v = some l) :
    l.length = 4 := by
  unfold packBEU32 at h
  split at h
  · cases h; rfl
  · cases h

theorem packBES16_of_range {v : Int} (h : inRange16 v) :
    packBES16 v = some [(v % 65536).toNat / 256, (v % 65536).toNat % 256] := by
  simp [packBES16, h.1, h.2]

theorem packBES16_some_length {v : Int} {l : List Nat} (h : packBES16 v = some l) :
    l.length = 2 := by
  unfold packBES16 at h
  split at h
  · cases h; rfl
  · cases h

theorem randint_eq_some (a b : Int) (g : RngState) (h : a ≤ b) :
    randint a b g =
      some (a + ((g.stream g.pos : Int)) % (b - a + 1), { g with pos := g.pos + 1 }) := by
  simp [randint, h]

theorem randint_bounds {a b : Int} {g : RngState} {p : Int × RngState}
    (h : randint a b g = some p) : a ≤ p.1 ∧ p.1 ≤ b := by
  unfold randint at h
  split at h
  · rename_i hab
    cases h
    have h1 := Int.emod_nonneg ((g.stream g.pos : Int)) (by omega : b - a + 1 ≠ 0)
    have h2 := Int.emod_lt_of_pos ((g.stream g.pos : Int)) (by omega : (0:Int) < b - a + 1)
    constructor <;> simp only [] <;> omega
  · cases h

theorem clamp16_range (v : Int) : inRange16 (clamp16 v) := by
  unfold clamp16 inRange16
  constructor
  · exact le_max_left _ _
  · exact max_le (by norm_num) (min_le_left _ _)

theorem noise_pairs_length {amp : Int} : ∀ {n : Nat} {g : RngState} {l : List (Int × Int)},
    noise_pairs amp g n = some l → l.length = n := by
  intro n
  induction n with
  | zero =>
    intro g l h
    rw [noise_pairs] at h
    cases h
    rfl
  | succ k ih =>
    intro g l h
    rw [noise_pairs] at h
    simp only [Option.bind_eq_bind, Option.bind_eq_some] at h
    rcases h with ⟨p1, _, p2, _, rest, hrest, h⟩
    cases h
    simp [ih hrest]

theorem noise_pairs_isSome {amp : Int} (hamp : 0 ≤ amp) :
    ∀ (n : Nat) (g : RngState), ∃ l, noise_pairs amp g n = some l := by
  intro n
  induction n with
  | zero =>
    intro g
    exact ⟨[], by rw [noise_pairs]⟩
  | succ k ih =>
    intro g
    have hle : -amp ≤ amp := by omega
    have h1 := randint_eq_some (-amp) amp g hle
    have h2 := randint_eq_some (-amp) amp { g with pos := g.pos + 1 } hle
    rcases ih { g with pos := g.pos + 1 + 1 } with ⟨rest, hrest⟩
    rw [noise_pairs]
    simp only [Option.bind_eq_bind, h1, Option.some_bind, h2, hrest]
    exact ⟨_, rfl⟩

theorem noise_pairs_mem_bounds {amp : Int} :
    ∀ {n : Nat} {g : RngState} {l : List (Int × Int)}, noise_pairs amp g n = some l →
      ∀ pr ∈ l, (-amp ≤ pr.1 ∧ pr.1 ≤ amp) ∧ (-amp ≤ pr.2 ∧ pr.2 ≤ amp) := by
  intro n
  induction n with
  | zero =>
    intro g l h
    rw [noise_pairs] at h
    cases h
    simp
  | succ k ih =>
    intro g l h
    rw [noise_pairs] at h
    simp only [Option.bind_eq_bind, Option.bind_eq_some] at h
    rcases h with ⟨p1, hp1, p2, hp2, rest, hrest, h⟩
    cases h
    intro pr hpr
    rcases List.mem_cons.mp hpr with hh | ht
    · subst hh
      exact ⟨randint_bounds hp1, randint_bounds hp2⟩
    · exact ih hrest pr ht

theorem sample_bytes_some_length {pr : Int × Int} {c : List Nat}
    (h : sample_bytes pr = some c) : c.length = 4 := by
  rw [sample_bytes] at h
  simp only [Option.bind_eq_bind, Option.bind_eq_some] at h
  rcases h with ⟨a, ha, b, hb, h⟩
  cases h
  simp [packBES16_some_length ha, packBES16_some_length hb]

theorem serialize_pairs_length : ∀ {l : List (Int × Int)} {b : List Nat},
    serialize_pairs l = some b → b.length = 4 * l.length := by
  intro l
  induction l with
  | nil =>
    intro b h
    rw [serialize_pairs] at h
    cases h
    rfl
  | cons pr rest ih =>
    intro b h
    rw [serialize_pairs] at h
    simp only [Option.bind_eq_bind, Option.bind_eq_some] at h
    rcases h with ⟨c, hc, r, hr, h⟩
    cases h
    simp [List.length_append, sample_bytes_some_length hc, ih hr]
    omega

theorem serialize_pairs_isSome : ∀ {l : List (Int × Int)},
    (∀ pr ∈ l, inRange16 pr.1 ∧ inRange16 pr.2) → ∃ b, serialize_pairs l = some b := by
  intro l
  induction l with
  | nil =>
    intro _
    exact ⟨[], by rw [serialize_pairs]⟩
  | cons pr rest ih =>
    intro hmem
    have h1 := (hmem pr (by simp)).1
    have h2 := (hmem pr (by simp)).2
    rcases ih (fun q hq => hmem q (by simp [hq])) with ⟨b, hb⟩
    rw [serialize_pairs]
    simp only [Option.bind_eq_bind, sample_bytes, packBES16_of_range h1,
      packBES16_of_range h2, Option.some_bind, hb]
    exact ⟨_, rfl⟩

theorem generate_iq_pairs_fast_length {O : PyOracle} {n p s : Int} {g : RngState}
    {l : List (Int × Int)} (h : generate_iq_pairs_fast O n p s g = some l) :
    l.length = n.toNat := by
  unfold generate_iq_pairs_fast at h
  split_ifs at h with h0 h1 h2
  · rw [Option.bind_eq_some] at h
    rcases h with ⟨p1, _, h⟩
    cases h
    simp
  · rw [Option.bind_eq_some] at h
    rcases h with ⟨p1, _, h⟩
    exact noise_pairs_length h
  · rw [Option.bind_eq_some] at h
    rcases h with ⟨p1, _, h⟩
    cases h
    simp
  · rw [Option.bind_eq_some] at h
    rcases h with ⟨p1, _, h⟩
    cases h
    simp

theorem generate_iq_pairs_fast_bounded {O : PyOracle} (hO : TrigBounded O)
    (n p s : Int) (g : RngState) :
    ∃ l, generate_iq_pairs_fast O n p s g = some l ∧ l.length = n.toNat ∧
      ∀ pr ∈ l, inRange16 pr.1 ∧ inRange16 pr.2 := by
  unfold generate_iq_pairs_fast
  split_ifs with h0 h1 h2
  · rw [randint_eq_some (-500) 500 (seed_rng O s) (by omega), Option.some_bind]
    refine ⟨_, rfl, by simp, ?_⟩
    intro pr hpr
    simp only [List.mem_map] at hpr
    rcases hpr with ⟨i, _, hi⟩
    subst hi
    exact ⟨clamp16_range _, clamp16_range _⟩
  · have hr := randint_eq_some (-300) 300 (seed_rng O s) (by omega)
    rw [hr, Option.some_bind]
    have hm0 := Int.emod_nonneg (((seed_rng O s).stream (seed_rng O s).pos : Int))
      (by norm_num : (300 : Int) - -300 + 1 ≠ 0)
    have hm1 := Int.emod_lt_of_pos (((seed_rng O s).stream (seed_rng O s).pos : Int))
      (by norm_num : (0 : Int) < 300 - -300 + 1)
    have hamp : (0 : Int) ≤ 1000 +
        (-300 + ((seed_rng O s).stream (seed_rng O s).pos : Int) % (300 - -300 + 1)) := by
      omega
    rcases noise_pairs_isSome hamp n.toNat { seed_rng O s with pos := (seed_rng O s).pos + 1 }
      with ⟨l, hl⟩
    refine ⟨l, hl, noise_pairs_length hl, ?_⟩
    intro pr hpr
    have hb := noise_pairs_mem_bounds hl pr hpr
    unfold inRange16
    omega
  · have hr := randint_eq_some (-50) 50 (seed_rng O s) (by omega)
    rw [hr, Option.some_bind]
    refine ⟨_, rfl, by simp, ?_⟩
    intro pr hpr
    simp only [List.mem_map] at hpr
    rcases hpr with ⟨i, _, hi⟩
    subst hi
    have hm0 := Int.emod_nonneg (((seed_rng O s).stream (seed_rng O s).pos : Int))
      (by norm_num : (50 : Int) - -50 + 1 ≠ 0)
    have hm1 := Int.emod_lt_of_pos (((seed_rng O s).stream (seed_rng O s).pos : Int))
      (by norm_num : (0 : Int) < 50 - -50 + 1)
    have hamp : (0 : Int) ≤ 200 +
        (-50 + ((seed_rng O s).stream (seed_rng O s).pos : Int) % (50 - -50 + 1)) := by
      omega
    have hco := (hO 2 _ 0 0 i n.toNat hamp).1
    have hsi := (hO 2 _ 0 0 i n.toNat hamp).2
    constructor <;> unfold inRange16 <;> omega
  · rw [randint_eq_some (-1000) 1000 (seed_rng O s) (by omega), Option.some_bind]
    refine ⟨_, rfl, by simp, ?_⟩
    intro pr hpr
    simp only [List.mem_map] at hpr
    rcases hpr with ⟨i, _, hi⟩
    subst hi
    exact ⟨clamp16_range _, clamp16_range _⟩

theorem generate_iq_samples_fast_length {O : PyOracle} {n p s : Int} {g : RngState}
    {b : List Nat} (h : generate_iq_samples_fast O n p s g = some b) :
    b.length = 4 * n.toNat := by
  unfold generate_iq_samples_fast at h
  rw [Option.bind_eq_some] at h
  rcases h with ⟨l, hl, hs⟩
  rw [serialize_pairs_length hs, generate_iq_pairs_fast_length hl]

theorem generate_iq_samples_fast_isSome {O : PyOracle} (hO : TrigBounded O)
    (n p s : Int) (g : RngState) :
    ∃ b, generate_iq_samples_fast O n p s g = some b ∧ b.length = 4 * n.toNat := by
  rcases generate_iq_pairs_fast_bounded hO n p s g with ⟨l, hl, hlen, hmem⟩
  rcases serialize_pairs_isSome hmem with ⟨b, hb⟩
  refine ⟨b, ?_, ?_⟩
  · unfold generate_iq_samples_fast
    rw [hl, Option.some_bind, hb]
  · rw [serialize_pairs_length hb, hlen]

theorem create_ethernet_header_default :
    create_ethernet_header default_src_mac default_dst_mac =
      some [170, 187, 204, 221, 238, 255, 0, 17, 34, 51, 68, 85, 174, 254] := by
  decide

theorem create_oran_header_some_length {a b c d e f g : Int} {l : List Nat}
    (h : create_oran_header a b c d e f g = some l) : l.length = 8 := by
  unfold create_oran_header at h
  simp only [Option.bind_eq_some] at h
  rcases h with ⟨b0, h0, b1, h1, b2, h2, b3, h3, sw, hsw, h⟩
  cases h
  simp [List.length_append, packU8_some_length h0, packU8_some_length h1,
    packU8_some_length h2, packU8_some_length h3, packBEU32_some_length hsw]

theorem readBE16_eth_ecpri_head (t : List Nat) :
    readBE16 (([170, 187, 204, 221, 238, 255, 0, 17, 34, 51, 68, 85, 174, 254] ++
      [16, 51, 56]) ++ t) 15 = 13112 := by
  unfold readBE16
  rw [List.getD_append ([170, 187, 204, 221, 238, 255, 0, 17, 34, 51, 68, 85, 174, 254] ++
        [16, 51, 56]) t 0 15 (by decide),
    List.getD_append ([170, 187, 204, 221, 238, 255, 0, 17, 34, 51, 68, 85, 174, 254] ++
        [16, 51, 56]) t 0 (15 + 1) (by decide)]
  decide

theorem create_oran_packet_fast_zero_isSome :
    ∃ pkt, create_oran_packet_fast testOracle 0 rngZero = some pkt := by
  rcases generate_iq_samples_fast_isSome trigBounded_testOracle (273 * 12) ((0 : Int) % 4)
    0 rngZero with ⟨iq, hiq, hlen⟩
  unfold create_oran_packet_fast
  rw [create_ethernet_header_default, Option.some_bind]
  rw [show Int.fdiv 0 140 % 1024 = 0 from by decide,
    show Int.fdiv (Int.fdiv 0 14 % 10) 2 % 10 = 0 from by decide,
    show Int.fdiv 0 14 % 10 = 0 from by decide,
    show (0 : Int) % 14 = 0 from by decide,
    show (0 : Int) % 4096 = 0 from by decide,
    show (4096 : Int) + 0 % 8 = 4096 from by decide,
    show (0 : Int) % 65536 = 0 from by decide]
  rw [show create_oran_header 0 0 0 0 0 0 273 = some [16, 0, 0, 0, 0, 8, 1, 17] from by decide,
    Option.some_bind]
  rw [hiq, Option.some_bind]
  rw [show (([16, 0, 0, 0, 0, 8, 1, 17] : List Nat).length : Int) + (iq.length : Int) =
      13112 from by rw [hlen]; norm_num]
  rw [show create_ecpri_header 0 4096 0 13112 = some [16, 51, 56, 16, 0, 0, 0] from by decide,
    Option.some_bind]
  exact ⟨_, rfl⟩

/-- C1: for every assembled packet, the 16-bit big-endian payload-size
field of the eCPRI transport header (bytes 15 and 16 of the packet, right
after the 14-byte Ethernet header) equals the byte length of the O-RAN
application header plus the IQ block that follow it, namely
`8 + 4 * 3276`. -/
theorem C1_payload_size_exact {O : PyOracle} {packet_id : Int} {g : RngState}
    {pkt : List Nat} (h : create_oran_packet_fast O packet_id g = some pkt) :
    readBE16 pkt 15 = 8 + 4 * 3276 := by
  unfold create_oran_packet_fast at h
  rw [create_ethernet_header_default, Option.some_bind] at h
  rw [Option.bind_eq_some] at h
  rcases h with ⟨oran, horan, h⟩
  rw [Option.bind_eq_some] at h
  rcases h with ⟨iq, hiq, h⟩
  rw [Option.bind_eq_some] at h
  rcases h with ⟨ecpri, hec, h⟩
  cases h
  have hol : oran.length = 8 := create_oran_header_some_length horan
  have hil : iq.length = 13104 := by
    have h2 := generate_iq_samples_fast_length hiq
    omega
  rw [hol, hil] at hec
  norm_num at hec
  unfold create_ecpri_header at hec
  rw [show pyOr (pyOr (pyOr (1 * 16) 0) 0) ((0 : Int) % 4) = 16 from by decide,
    show packU8 16 = some [16] from by decide, Option.some_bind,
    show packBEU16 13112 = some [51, 56] from by decide, Option.some_bind] at hec
  rw [Option.bind_eq_some] at hec
  rcases hec with ⟨rtcb, hrtc, hec⟩
  rw [Option.bind_eq_some] at hec
  rcases hec with ⟨sqb, hsq, hec⟩
  cases hec
  have hx := readBE16_eth_ecpri_head (rtcb ++ (sqb ++ (oran ++ iq)))
  norm_num
  simpa [List.append_assoc, List.cons_append, List.nil_append] using hx

/-- Witness for C1 at the concrete input `packet_id = 0` with the zero
oracle and the zero leftover generator state. -/
theorem C1_payload_size_exact_witness :
    (create_oran_packet_fast testOracle 0 rngZero).isSome = true ∧
      readBE16 ((create_oran_packet_fast testOracle 0 rngZero).getD []) 15 = 8 + 4 * 3276 := by
  rcases create_oran_packet_fast_zero_isSome with ⟨pkt, hp⟩
  rw [hp]
  exact ⟨rfl, C1_payload_size_exact hp⟩

/-- C2 counterexample: encoding the application header with frame_id 5,
subframe_id 3, slot_id 9, symbol_id 13, section_id 100, start_rb 0 and
num_rb 273 and unpacking the 8 bytes per the documented bit layout yields
numPrbu 17, not 273: the claimed exact round trip is false. -/
theorem C2_bitpack_roundtrip_counterexample :
    (create_oran_header 5 3 9 13 100 0 273).map (fun l => (decodeOranHeader l).numPrbu) =
      some 17 ∧ (17 : Nat) ≠ 273 := by
  exact ⟨by decide, by decide⟩

/-- C2 amended: the encode of (5, 3, 9, 13, 100, 0, 273) decodes back to
frame 5, subframe 3, slot 9, symbol 13, section 100, rb 1, symInc 0, but
startPrbu 1 and numPrbu 17: 273 overflows the 8-bit numPrbu field and its
ninth bit is ORed into the adjacent startPrbu field. -/
theorem C2_bitpack_roundtrip_amended :
    (create_oran_header 5 3 9 13 100 0 273).map decodeOranHeader =
      some { frameId := 5, subframeId := 3, slotId := 9, symbolId := 13, sectionId := 100,
             rb := 1, symInc := 0, startPrbu := 1, numPrbu := 17 } := by
  decide

/-- C3 counterexample: the encoder does not mask subframe_id to 4 bits;
at subframe_id 16 (all other fields at their defaults) the pack raises
struct.error instead of emitting byte 2 = 0 as the claim would have. -/
theorem C3_field_masking_counterexample :
    create_oran_header 0 16 0 0 0 0 273 = none := by
  decide

/-- C3 amended: only slot_id is masked (to 4 bits).  For in-range
subframe_id and symbol_id (other fields at their source defaults) byte 2
is (subframe_id << 4) | (slot_id mod 16) and byte 3 is symbol_id << 2;
out-of-range subframe_id, symbol_id, section_id or start_rb make the
pack fail instead of truncating. -/
theorem C3_field_masking_amended (subframe_id slot_id symbol_id : Int)
    (h1 : 0 ≤ subframe_id) (h2 : subframe_id < 16)
    (h3 : 0 ≤ symbol_id) (h4 : symbol_id < 64) :
    create_oran_header 0 subframe_id slot_id symbol_id 0 0 273 =
      some [16, 0, (subframe_id * 16 + slot_id % 16).toNat, (symbol_id * 4).toNat,
        0, 8, 1, 17] := by
  unfold create_oran_header
  have hm0 := Int.emod_nonneg slot_id (by norm_num : (16 : Int) ≠ 0)
  have hm1 := Int.emod_lt_of_pos slot_id (by norm_num : (0 : Int) < 16)
  rw [pyOr_mul16 subframe_id (slot_id % 16) h1 h2 hm0 hm1, pyOr_zero_right (symbol_id * 4)]
  rw [show packU8 (pyOr (pyOr (0 * 128) (1 * 16)) ((0 : Int) % 16)) = some [16] from by decide,
    Option.some_bind,
    show packU8 0 = some [0] from by decide, Option.some_bind]
  have hb2 : packU8 (subframe_id * 16 + slot_id % 16) =
      some [(subframe_id * 16 + slot_id % 16).toNat] := packU8_of_range (by omega) (by omega)
  rw [hb2, Option.some_bind]
  have hb3 : packU8 (symbol_id * 4) = some [(symbol_id * 4).toNat] :=
    packU8_of_range (by omega) (by omega)
  rw [hb3, Option.some_bind]
  rw [show packBEU32 (pyOr (pyOr (pyOr (pyOr ((0 : Int) * 1048576) (1 * 524288)) (0 * 262144))
      ((0 : Int) * 256)) 273) = some [0, 8, 1, 17] from by decide, Option.some_bind]
  rfl

/-- Witness for the amended C3 at subframe_id 3, slot_id 9, symbol_id 13. -/
theorem C3_field_masking_amended_witness :
    ((0 : Int) ≤ 3 ∧ (3 : Int) < 16 ∧ (0 : Int) ≤ 13 ∧ (13 : Int) < 64) ∧
      create_oran_header 0 3 9 13 0 0 273 = some [16, 0, 57, 52, 0, 8, 1, 17] := by
  refine ⟨by norm_num, ?_⟩
  have h := C3_field_masking_amended 3 9 13 (by norm_num) (by norm_num) (by norm_num)
    (by norm_num)
  exact h.trans (by decide)

/-- C4 counterexample: at frame_id 256 the encoder raises struct.error
(returns none) instead of wrapping the frame byte to 0. -/
theorem C4_frame_wrap_counterexample :
    create_oran_header 256 0 0 0 0 0 273 = none := by
  decide

/-- C4 amended: the frame-id byte equals frame_id only for
0 <= frame_id < 256 (no masking is applied); for larger values the pack
fails, and in particular the batch generator itself fails at
packet_id 35840, the first index whose derived frame_id is 256. -/
theorem C4_frame_byte_amended :
    (∀ frame_id : Int, 0 ≤ frame_id → frame_id < 256 →
      create_oran_header frame_id 0 0 0 0 0 273 =
        some [16, frame_id.toNat, 0, 0, 0, 8, 1, 17]) ∧
    (∀ (O : PyOracle) (g : RngState), create_oran_packet_fast O 35840 g = none) := by
  constructor
  · intro frame_id h0 h1
    unfold create_oran_header
    rw [show packU8 (pyOr (pyOr (0 * 128) (1 * 16)) ((0 : Int) % 16)) = some [16] from by decide,
      Option.some_bind]
    rw [packU8_of_range h0 h1, Option.some_bind]
    rw [show packU8 (pyOr ((0 : Int) * 16) ((0 : Int) % 16)) = some [0] from by decide,
      Option.some_bind]
    rw [show packU8 (pyOr ((0 : Int) * 4) 0) = some [0] from by decide, Option.some_bind]
    rw [show packBEU32 (pyOr (pyOr (pyOr (pyOr ((0 : Int) * 1048576) (1 * 524288)) (0 * 262144))
        ((0 : Int) * 256)) 273) = some [0, 8, 1, 17] from by decide, Option.some_bind]
    rfl
  · intro O g
    unfold create_oran_packet_fast
    rw [create_ethernet_header_default, Option.some_bind]
    rw [show Int.fdiv 35840 140 % 1024 = 256 from by decide,
      show Int.fdiv (Int.fdiv 35840 14 % 10) 2 % 10 = 0 from by decide,
      show Int.fdiv 35840 14 % 10 = 0 from by decide,
      show (35840 : Int) % 14 = 0 from by decide,
      show (35840 : Int) % 4096 = 3072 from by decide]
    rw [show create_oran_header 256 0 0 0 3072 0 273 = none from by decide, Option.none_bind]

/-- Witness for the amended C4 at frame_id 5. -/
theorem C4_frame_byte_amended_witness :
    ((0 : Int) ≤ 5 ∧ (5 : Int) < 256) ∧
      create_oran_header 5 0 0 0 0 0 273 = some [16, 5, 0, 0, 0, 8, 1, 17] := by
  refine ⟨by norm_num, ?_⟩
  have h := C4_frame_byte_amended.1 5 (by norm_num) (by norm_num)
  exact h.trans (by decide)

/-- C5: for every sample count, pattern and seed, the IQ generator
produces pairs that all lie in the signed 16-bit range, so the big-endian
16-bit serialization of the block never fails.  The hypothesis records
the mathematical bound abs cos, abs sin at most 1 on the float oracle. -/
theorem C5_samples_in_range {O : PyOracle} (hO : TrigBounded O)
    (num_samples pattern_type seed : Int) (g : RngState) :
    ∃ l b, generate_iq_pairs_fast O num_samples pattern_type seed g = some l ∧
      (∀ pr ∈ l, inRange16 pr.1 ∧ inRange16 pr.2) ∧
      serialize_pairs l = some b ∧
      generate_iq_samples_fast O num_samples pattern_type seed g = some b := by
  rcases generate_iq_pairs_fast_bounded hO num_samples pattern_type seed g with
    ⟨l, hl, hlen, hmem⟩
  rcases serialize_pairs_isSome hmem with ⟨b, hb⟩
  refine ⟨l, b, hl, hmem, hb, ?_⟩
  unfold generate_iq_samples_fast
  rw [hl, Option.some_bind, hb]

/-- Witness for C5 with the zero oracle at count 4, the low-power
pattern and seed 42. -/
theorem C5_samples_in_range_witness :
    TrigBounded testOracle ∧
      (generate_iq_samples_fast testOracle 4 2 42 rngZero).isSome = true := by
  refine ⟨trigBounded_testOracle, ?_⟩
  rcases C5_samples_in_range trigBounded_testOracle 4 2 42 rngZero with ⟨l, b, _, _, _, hg⟩
  rw [hg]
  rfl

/-- C6: the IQ generator reseeds the global generator on entry
(random.seed(seed)), so its output depends only on (count, pattern,
seed): any two leftover generator states give identical bytes. -/
theorem C6_deterministic_in_seed (O : PyOracle) (num_samples pattern_type seed : Int)
    (g1 g2 : RngState) :
    generate_iq_samples_fast O num_samples pattern_type seed g1 =
      generate_iq_samples_fast O num_samples pattern_type seed g2 := rfl

/-- C7 counterexample: a negative sample count does not fail fast with
an error; the generator returns the empty byte string (range over a
negative count is empty), here at count -5, the noise pattern, seed 7. -/
theorem C7_negative_count_counterexample :
    generate_iq_samples_fast testOracle (-5) 1 7 rngZero = some [] := by
  decide

/-- C7 amended: a nonpositive sample count is treated exactly like zero:
the generator returns the empty byte string and never raises. -/
theorem C7_nonpositive_count_amended (O : PyOracle) (num_samples pattern_type seed : Int)
    (g : RngState) (h : num_samples ≤ 0) :
    generate_iq_samples_fast O num_samples pattern_type seed g = some [] := by
  unfold generate_iq_samples_fast generate_iq_pairs_fast
  rw [Int.toNat_of_nonpos h]
  split_ifs with h0 h1 h2
  · rw [randint_eq_some (-500) 500 (seed_rng O seed) (by norm_num), Option.some_bind]
    simp [serialize_pairs]
  · rw [randint_eq_some (-300) 300 (seed_rng O seed) (by norm_num), Option.some_bind]
    rw [noise_pairs]
    simp [serialize_pairs]
  · rw [randint_eq_some (-50) 50 (seed_rng O seed) (by norm_num), Option.some_bind]
    simp [serialize_pairs]
  · rw [randint_eq_some (-1000) 1000 (seed_rng O seed) (by norm_num), Option.some_bind]
    simp [serialize_pairs]

/-- Witness for the amended C7 at count -3, low-power pattern, seed 1. -/
theorem C7_nonpositive_count_amended_witness :
    ((-3 : Int) ≤ 0) ∧ generate_iq_samples_fast testOracle (-3) 2 1 rngZero = some [] :=
  ⟨by norm_num, C7_nonpositive_count_amended testOracle (-3) 2 1 rngZero (by norm_num)⟩

/-- C8: the two transport-header usage patterns agree: encoding with
payload size 0 and patching bytes 1-2 afterwards equals encoding with the
payload size passed directly, and the emitted header is 7 bytes. -/
theorem C8_patch_equals_direct (message_type rtc_id seq_id payload_size : Int)
    (h0 : 0 ≤ payload_size) (h1 : payload_size < 65536) :
    (create_ecpri_header message_type rtc_id seq_id 0).bind
        (fun hd => patch_ecpri_payload hd payload_size) =
      create_ecpri_header message_type rtc_id seq_id payload_size ∧
    ∀ l, create_ecpri_header message_type rtc_id seq_id payload_size = some l →
      l.length = 7 := by
  constructor
  · unfold create_ecpri_header patch_ecpri_payload
    cases hb0 : packU8 (pyOr (pyOr (pyOr (1 * 16) 0) 0) (message_type % 4)) with
    | none => simp
    | some b0 =>
      rw [Option.some_bind, Option.some_bind]
      rw [show packBEU16 0 = some [0, 0] from by decide, Option.some_bind]
      rw [packBEU16_of_range h0 h1, Option.some_bind]
      cases hrtc : packBEU16 rtc_id with
      | none => simp
      | some rtcb =>
        rw [Option.some_bind, Option.some_bind]
        cases hsq : packBEU16 seq_id with
        | none => simp
        | some sqb =>
          rw [Option.some_bind, Option.some_bind, Option.some_bind]
          obtain ⟨hb0eq, -, -⟩ := packU8_some hb0
          subst hb0eq
          simp [List.append_assoc]
  · intro l hl
    unfold create_ecpri_header at hl
    simp only [Option.bind_eq_some] at hl
    rcases hl with ⟨b0, hb0, ps, hps, rtcb, hrtc, sqb, hsq, hl⟩
    cases hl
    simp [List.length_append, packU8_some_length hb0, packBEU16_some_length hps,
      packBEU16_some_length hrtc, packBEU16_some_length hsq]

/-- Witness for C8 at message_type 0, rtc_id 0x1234, seq_id 0 and
payload size 13112. -/
theorem C8_patch_equals_direct_witness :
    ((0 : Int) ≤ 13112 ∧ (13112 : Int) < 65536) ∧
      (create_ecpri_header 0 4660 0 0).bind (fun hd => patch_ecpri_payload hd 13112) =
        create_ecpri_header 0 4660 0 13112 ∧
      ((create_ecpri_header 0 4660 0 13112).getD []).length = 7 := by
  have h := C8_patch_equals_direct 0 4660 0 13112 (by norm_num) (by norm_num)
  refine ⟨⟨by norm_num, by norm_num⟩, h.1, ?_⟩
  have h7 := h.2 [16, 51, 56, 18, 52, 0, 0] (by decide)
  rw [show create_ecpri_header 0 4660 0 13112 = some [16, 51, 56, 18, 52, 0, 0] from by decide]
  exact h7

/-- C9: the global-header encoder is a constant: it always returns the
same 24-byte sequence whose little-endian fields decode to magic
0xa1b2c3d4, version (2, 4), timezone 0, accuracy 0, snaplen 65535 and
link type 1. -/
theorem C9_global_header_constant :
    create_pcap_global_header.map (fun l =>
      (l.length, readLE32 l 0, readLE16 l 4, readLE16 l 6, readLE32 l 8,
        readLE32 l 12, readLE32 l 16, readLE32 l 20)) =
    some (24, 0xa1b2c3d4, 2, 4, 0, 0, 65535, 1) := by
  rfl

/-- C10: the Ethernet encoder does no octet-count validation: whenever
both MAC strings parse as hex it returns dst ++ src ++ [0xae, 0xfe], the
result has 14 bytes exactly when the parsed octets total 12, and the
4-octet dst string 00:11:22:33 yields a 12-byte header with no error. -/
theorem C10_ethernet_no_length_check (src_mac dst_mac : List Char) (s d : List Nat)
    (hs : mac_to_bytes src_mac = some s) (hd : mac_to_bytes dst_mac = some d) :
    create_ethernet_header src_mac dst_mac = some (d ++ s ++ [174, 254]) ∧
      ((d ++ s ++ [174, 254]).length = 14 ↔ d.length + s.length = 12) ∧
      create_ethernet_header default_src_mac ("00:11:22:33".toList) =
        some [0, 17, 34, 51, 0, 17, 34, 51, 68, 85, 174, 254] := by
  refine ⟨?_, ?_, by decide⟩
  · unfold create_ethernet_header
    rw [hd, Option.some_bind, hs, Option.some_bind,
      show packBEU16 0xaefe = some [174, 254] from by decide, Option.some_bind]
  · simp [List.length_append]
    omega

/-- Witness for C10 with the default source MAC and the 4-octet
destination string 00:11:22:33. -/
theorem C10_ethernet_no_length_check_witness :
    (mac_to_bytes default_src_mac = some [0, 17, 34, 51, 68, 85] ∧
      mac_to_bytes ("00:11:22:33".toList) = some [0, 17, 34, 51]) ∧
      create_ethernet_header default_src_mac ("00:11:22:33".toList) =
        some [0, 17, 34, 51, 0, 17, 34, 51, 68, 85, 174, 254] ∧
      ([0, 17, 34, 51, 0, 17, 34, 51, 68, 85, 174, 254] : List Nat).length = 12 := by
  have h := C10_ethernet_no_length_check default_src_mac ("00:11:22:33".toList)
    [0, 17, 34, 51, 68, 85] [0, 17, 34, 51] (by decide) (by decide)
  exact ⟨⟨by decide, by decide⟩, h.1.trans (by decide), by decide⟩
